import Mathlib

/-!
# Verification of the `up` session supervisor (`cmd/up.go`)

A shallow embedding of the session supervisor of the `up` command:
the supervisor loop (`Activate`), the channel wait
(`WaitUntilExitOrInterrupt`), dev-mode activation (`devMode`), the sync
bring-up (`startSync`), the shutdown sub-procedure (`shutdown`) and the
top-level select of `RunUp`.

External effects (cluster calls, the sync engine, channels, timers) are
modelled by explicit scripts of outcomes: each embedded function consumes
the outcome that the corresponding Go call would have produced, and emits
a trace of the actions it performed, so that ordering and atomicity
properties can be stated about the trace.
-/

namespace Okteto

/-- Go error values as they are distinguished by `cmd/up.go`:
the two sentinels `errors.ErrLostConnection` and `errors.ErrCommandFailed`,
errors recognised by `errors.IsNotFound`, and everything else
(`fmt.Errorf`-style errors carrying a message). -/
inductive GoError where
  | lostConnection : GoError
  | commandFailed : GoError
  | notFound (msg : String) : GoError
  | generic (msg : String) : GoError
deriving DecidableEq, Repr

/-- The predicate of `errors.IsNotFound`. -/
def GoError.isNotFound : GoError → Bool
  | .notFound _ => true
  | _ => false

/-- An event delivered on one of the three channels that
`WaitUntilExitOrInterrupt` selects over: a value on `up.Running`
(the remote command's exit status), a value on `up.ErrChan`
(an asynchronous non-fatal error), or a fire of `up.Disconnect`. -/
inductive ChanEvent where
  | running (e : Option GoError) : ChanEvent
  | errChan (e : GoError) : ChanEvent
  | disconnect : ChanEvent
deriving DecidableEq, Repr

/-- Embedding of `UpContext.WaitUntilExitOrInterrupt` (up.go:193-211), over the
ordered stream of channel events it observes. `none` means no event in the
stream makes it return (the select keeps blocking); `some r` means it
returns `r` (itself an `Option GoError`, Go's possibly-nil error):
* a nil value on `Running` returns nil;
* a non-nil value on `Running` returns `ErrCommandFailed`;
* a value on `ErrChan` is logged and the loop continues;
* a fire of `Disconnect` returns `ErrLostConnection`. -/
def WaitUntilExitOrInterrupt : List ChanEvent → Option (Option GoError)
  | [] => none
  | ev :: rest =>
    match ev with
    | .running none => some none
    | .running (some _) => some (some .commandFailed)
    | .errChan _ => WaitUntilExitOrInterrupt rest
    | .disconnect => some (some .lostConnection)

/-- The first event of the stream that is not an `ErrChan` event
(the first event on which the select can return). -/
def firstDecisiveEvent : List ChanEvent → Option ChanEvent
  | [] => none
  | .errChan _ :: rest => firstDecisiveEvent rest
  | ev :: _ => some ev

/-- The supervisor's decision after the wait returns: loop back through a
shutdown (`continue`), or post the error on `up.Exit` and return. -/
inductive Decision where
  | reconnect : Decision
  | exitWith (e : Option GoError) : Decision
deriving DecidableEq, Repr

/-- The exit-selection conditional of `UpContext.Activate` (up.go:179-188):
`if prevError != nil { if prevError == ErrLostConnection || (prevError ==
ErrCommandFailed && !up.Sy.IsConnected()) { shutdown; continue } };
up.Exit <- prevError; return`. -/
def exitSelection (prevError : Option GoError) (syConnected : Bool) : Decision :=
  match prevError with
  | some e =>
    if e = .lostConnection ∨ (e = .commandFailed ∧ ¬ syConnected) then
      .reconnect
    else
      .exitWith (some e)
  | none => .exitWith none

/-- State of an `UpContext` as seen by `shutdown`: which of the
nilable fields (`Cancel`, `WG`, `DevForwarder`, `SyncForwarder`) are set.
For a present wait-group, `some (some t)` means the background tasks drain
`t` milliseconds after cancellation and `some none` means they never
drain; `none` means the `WG` field itself is nil. -/
structure SessionState where
  cancel : Option Unit
  wg : Option (Option Nat)
  devForwarder : Option Unit
  syncForwarder : Option Unit
deriving DecidableEq, Repr

/-- Result of a call on a possibly-nil Go receiver or function value. -/
inductive CallResult where
  | ok : CallResult
  | nilPanic : CallResult
deriving DecidableEq, Repr

/-- Calling through a nilable Go value: dereferencing nil panics. -/
def callNilable {α : Type} : Option α → CallResult
  | none => .nilPanic
  | some _ => .ok

/-- Outcome of the shutdown sub-procedure: it returned after
`elapsedMs` milliseconds, or a nil dereference panicked. -/
inductive ShutdownResult where
  | returned (elapsedMs : Nat) : ShutdownResult
  | panicked : ShutdownResult
deriving DecidableEq, Repr

/-- Embedding of `UpContext.shutdown` (up.go:365-398).  Guards: `if up.Cancel != nil {
up.Cancel() }`, the done-goroutine's `if up.WG != nil { up.WG.Wait() }`,
and `if up.DevForwarder != nil { ... }` / `if up.SyncForwarder != nil {
... }`.  The final select races `done` (closed when the wait-group drains,
immediately when `WG` is nil) against `time.After(1 * time.Second)`. -/
def shutdown (s : SessionState) : ShutdownResult :=
  let cancelStep : CallResult :=
    if s.cancel.isSome then callNilable s.cancel else .ok
  match cancelStep with
  | .nilPanic => .panicked
  | .ok =>
    let wgStep : CallResult :=
      if s.wg.isSome then callNilable s.wg else .ok
    let devStop : CallResult :=
      if s.devForwarder.isSome then callNilable s.devForwarder else .ok
    let syncStop : CallResult :=
      if s.syncForwarder.isSome then callNilable s.syncForwarder else .ok
    match wgStep, devStop, syncStop with
    | .nilPanic, _, _ => .panicked
    | _, .nilPanic, _ => .panicked
    | _, _, .nilPanic => .panicked
    | .ok, .ok, .ok =>
      let doneAtMs : Option Nat :=
        match s.wg with
        | none => some 0
        | some drain => drain
      match doneAtMs with
      | some t => if t ≤ 1000 then .returned t else .returned 1000
      | none => .returned 1000

/-- The `UpContext` state at the moment `RunUp` installs `defer
up.shutdown()` (up.go:98-104): only `WG` has been initialised (a fresh
wait-group with no registered tasks, so `Wait` returns immediately);
`Cancel` and both forwarders are still nil. -/
def runUpInitialState : SessionState :=
  { cancel := none, wg := some (some 0), devForwarder := none, syncForwarder := none }

/-- The event that wins the top-level select of `RunUp` (up.go:109-119):
either the OS interrupt signal, or a value delivered on `up.Exit`. -/
inductive RunUpEvent where
  | interrupt : RunUpEvent
  | exitChan (e : Option GoError) : RunUpEvent
deriving DecidableEq, Repr

/-- The select of `RunUp` (up.go:109-120): on interrupt it falls through
to `return nil`; on an exit-channel value it returns nil when the value is
nil and the value itself otherwise. -/
def runUpSelect : RunUpEvent → Option GoError
  | .interrupt => none
  | .exitChan e =>
    match e with
    | none => none
    | some err => some err

/-- The remote workload descriptor (a deployment), as far as `devMode`
inspects it: the predicate `deployments.IsDevModeOn`. -/
structure Workload where
  devModeOn : Bool
deriving DecidableEq, Repr

/-- Result of `deployments.GevDevSandbox(up.Dev)`: a freshly synthesised sandbox
descriptor; it is not yet in dev mode. -/
def gevDevSandbox : Workload :=
  { devModeOn := false }

/-- Actions `devMode` performs, in trace order.  Cluster mutations are
`secretsCreate`, `volumeCreate`, `devModeOn` and `servicesCreate`;
everything else is a read, a local construction or a terminal prompt. -/
inductive DevAction where
  | getLocal : DevAction
  | syncthingNew : DevAction
  | getDeployment : DevAction
  | prompt : DevAction
  | sandboxBuild : DevAction
  | secretsCreate : DevAction
  | volumeCreate : DevAction
  | devModeOn : DevAction
  | servicesCreate : DevAction
  | getSyncPod : DevAction
  | getDevPod : DevAction
deriving DecidableEq, Repr

/-- Outcomes of the external calls made by `UpContext.devMode`
(up.go:213-294), one field per call site, in program order.
`dataVolumeResults` has one entry per declared `dev.Volumes[i]`. -/
structure DevModeEnv where
  devName : String
  devNamespace : String
  localNamespace : String
  getLocalResult : Option GoError
  syncthingNewResult : Option GoError
  getResult : Except GoError Workload
  userAnswersYes : Bool
  secretsCreateResult : Option GoError
  volumeCreateResult : Option GoError
  dataVolumeResults : List (Option GoError)
  devModeOnResult : Except GoError String
  servicesCreateResult : Option GoError
  syncPodResult : Except GoError String
  devPodResult : Except GoError String
deriving Repr

/-- Effect of `if up.Dev.Namespace == "" { up.Dev.Namespace = namespace }`
(up.go:220-222): the effective namespace after defaulting to the one
returned by `k8Client.GetLocal`. -/
def devModeEffNamespace (env : DevModeEnv) : String :=
  if env.devNamespace = "" then env.localNamespace else env.devNamespace

/-- The `for i := range up.Dev.Volumes` loop (up.go:260-264): create the
data volumes in order, stopping at the first failure. -/
def createDataVolumes : List (Option GoError) → List DevAction × Option GoError
  | [] => ([], none)
  | none :: rest =>
    let r := createDataVolumes rest
    (.volumeCreate :: r.1, r.2)
  | some e :: _ => ([.volumeCreate], some e)

/-- Calls of `pods.GetDevPod` by sync label then by dev label (up.go:279-293). -/
def devModePods (env : DevModeEnv) (tr : List DevAction) :
    List DevAction × Option GoError :=
  match env.syncPodResult with
  | .error e => (tr ++ [.getSyncPod], some e)
  | .ok _ =>
    match env.devPodResult with
    | .error e => (tr ++ [.getSyncPod, .getDevPod], some e)
    | .ok _ => (tr ++ [.getSyncPod, .getDevPod], none)

/-- The tail of `UpContext.devMode` after the deployment has been resolved
(up.go:244-293): the retry deactivation guard (`if isRetry &&
!deployments.IsDevModeOn(d)`), then secrets, the main volume, the data
volumes, `deployments.DevModeOn`, the service when the deployment was
freshly created, and the two pod fetches. -/
def devModeAfterGet (isRetry create : Bool) (d : Workload) (env : DevModeEnv)
    (tr : List DevAction) : List DevAction × Option GoError :=
  if isRetry ∧ ¬ d.devModeOn then
    (tr, some (.generic "Your Okteto Environment has been deactivated"))
  else
    match env.secretsCreateResult with
    | some e => (tr ++ [.secretsCreate], some e)
    | none =>
      match env.volumeCreateResult with
      | some e => (tr ++ [.secretsCreate, .volumeCreate], some e)
      | none =>
        let v := createDataVolumes env.dataVolumeResults
        match v.2 with
        | some e => (tr ++ [.secretsCreate, .volumeCreate] ++ v.1, some e)
        | none =>
          match env.devModeOnResult with
          | .error e =>
            (tr ++ [.secretsCreate, .volumeCreate] ++ v.1 ++ [.devModeOn], some e)
          | .ok _c =>
            if create then
              match env.servicesCreateResult with
              | some e =>
                (tr ++ [.secretsCreate, .volumeCreate] ++ v.1
                   ++ [.devModeOn, .servicesCreate], some e)
              | none =>
                devModePods env
                  (tr ++ [.secretsCreate, .volumeCreate] ++ v.1
                     ++ [.devModeOn, .servicesCreate])
            else
              devModePods env
                (tr ++ [.secretsCreate, .volumeCreate] ++ v.1 ++ [.devModeOn])

/-- Embedding of `UpContext.devMode(isRetry)` (up.go:213-294): resolve local cluster
credentials, build the syncthing handle, fetch the deployment; when the
fetch fails with NotFound on a first attempt, prompt for sandbox creation
(declining fails with `deployment %s not found [current context: %s]`);
a NotFound on retry, or any other fetch error, is returned as is. -/
def devMode (isRetry : Bool) (env : DevModeEnv) : List DevAction × Option GoError :=
  match env.getLocalResult with
  | some e => ([.getLocal], some e)
  | none =>
    match env.syncthingNewResult with
    | some e => ([.getLocal, .syncthingNew], some e)
    | none =>
      match env.getResult with
      | .error e =>
        if ¬ e.isNotFound ∨ isRetry then
          ([.getLocal, .syncthingNew, .getDeployment], some e)
        else if ¬ env.userAnswersYes then
          ([.getLocal, .syncthingNew, .getDeployment, .prompt],
           some (.generic ("deployment " ++ env.devName
             ++ " not found [current context: " ++ devModeEffNamespace env ++ "]")))
        else
          devModeAfterGet isRetry true gevDevSandbox env
            [.getLocal, .syncthingNew, .getDeployment, .prompt, .sandboxBuild]
      | .ok d =>
        devModeAfterGet isRetry false d env
          [.getLocal, .syncthingNew, .getDeployment]

/-- The steps of `UpContext.startSync` (up.go:296-333), in program order. -/
inductive SyncStep where
  | run : SyncStep
  | addRemote : SyncStep
  | addGUI : SyncStep
  | forwarderStart : SyncStep
  | monitor : SyncStep
  | waitForPing : SyncStep
  | firstCompletion : SyncStep
  | overrideChanges : SyncStep
  | secondCompletion : SyncStep
  | updateConfig : SyncStep
  | restart : SyncStep
deriving DecidableEq, Repr

/-- Outcomes of the fallible calls of `startSync`, one per call site in
program order (`SyncForwarder.Start` and `go Sy.Monitor` cannot fail). -/
structure SyncScript where
  runResult : Option GoError
  addRemoteResult : Option GoError
  addGUIResult : Option GoError
  pingResult : Option GoError
  firstCompletionResult : Option GoError
  overrideResult : Option GoError
  secondCompletionResult : Option GoError
  updateConfigResult : Option GoError
  restartResult : Option GoError
deriving Repr

/-- The full step order of a successful `startSync`. -/
def syncStepOrder : List SyncStep :=
  [.run, .addRemote, .addGUI, .forwarderStart, .monitor, .waitForPing,
   .firstCompletion, .overrideChanges, .secondCompletion, .updateConfig, .restart]

/-- Embedding of `UpContext.startSync` (up.go:296-333): launch the sync agent
(`Sy.Run`), add the two sync forwards, start the sync forwarder, spawn the
monitor, wait for ping, wait for the first completion, override remote
changes, wait for the second completion, switch the folder type to
`sendreceive` and push the config (`UpdateConfig`), restart.  Each step
runs only after the previous one completed; the first failure aborts with
that step's error. -/
def startSync (s : SyncScript) : List SyncStep × Option GoError :=
  match s.runResult with
  | some e => ([.run], some e)
  | none =>
    match s.addRemoteResult with
    | some e => ([.run, .addRemote], some e)
    | none =>
      match s.addGUIResult with
      | some e => ([.run, .addRemote, .addGUI], some e)
      | none =>
        match s.pingResult with
        | some e =>
          ([.run, .addRemote, .addGUI, .forwarderStart, .monitor, .waitForPing], some e)
        | none =>
          match s.firstCompletionResult with
          | some e =>
            ([.run, .addRemote, .addGUI, .forwarderStart, .monitor, .waitForPing,
              .firstCompletion], some e)
          | none =>
            match s.overrideResult with
            | some e =>
              ([.run, .addRemote, .addGUI, .forwarderStart, .monitor, .waitForPing,
                .firstCompletion, .overrideChanges], some e)
            | none =>
              match s.secondCompletionResult with
              | some e =>
                ([.run, .addRemote, .addGUI, .forwarderStart, .monitor, .waitForPing,
                  .firstCompletion, .overrideChanges, .secondCompletion], some e)
              | none =>
                match s.updateConfigResult with
                | some e =>
                  ([.run, .addRemote, .addGUI, .forwarderStart, .monitor, .waitForPing,
                    .firstCompletion, .overrideChanges, .secondCompletion,
                    .updateConfig], some e)
                | none =>
                  match s.restartResult with
                  | some e => (syncStepOrder, some e)
                  | none => (syncStepOrder, none)

/-- The error the whole of `startSync` propagates: the outcome of the
first failing call, in program order. -/
def syncFirstFailure (s : SyncScript) : Option GoError :=
  match s.runResult with
  | some e => some e
  | none =>
    match s.addRemoteResult with
    | some e => some e
    | none =>
      match s.addGUIResult with
      | some e => some e
      | none =>
        match s.pingResult with
        | some e => some e
        | none =>
          match s.firstCompletionResult with
          | some e => some e
          | none =>
            match s.overrideResult with
            | some e => some e
            | none =>
              match s.secondCompletionResult with
              | some e => some e
              | none =>
                match s.updateConfigResult with
                | some e => some e
                | none => s.restartResult

/-- The externally visible actions of one run of `UpContext.Activate`
(up.go:124-190), in trace order. `saveState` is the successful
`term.SaveState` call before the loop; `devModeCall` records the `isRetry`
flag it was invoked with; `exitPost` is `up.Exit <- e` followed by
`return`; `shutdownCall` is the `up.shutdown()` on the reconnect path. -/
inductive Action where
  | saveState : Action
  | devModeCall (isRetry : Bool) : Action
  | forwarderStart : Action
  | startSyncCall : Action
  | runCommand : Action
  | restoreTerminal : Action
  | shutdownCall : Action
  | exitPost (e : Option GoError) : Action
deriving DecidableEq, Repr

/-- How one iteration of the `for` loop of `Activate` ends: it posted on
`up.Exit` and returned, it blocked forever inside the wait, or it shut
down and continued the loop. -/
inductive IterEnd where
  | exited (e : Option GoError) : IterEnd
  | blocked : IterEnd
  | reconnected : IterEnd
deriving DecidableEq, Repr

/-- The first error of the `for _, f := range up.Dev.Forward` loop of
`DevForwarder.Add` calls (up.go:147-152). -/
def firstErr : List (Option GoError) → Option GoError
  | [] => none
  | none :: rest => firstErr rest
  | some e :: _ => some e

/-- Outcomes of the external world for one iteration of the `Activate`
loop: the environment `devMode` runs in, the results of the forward `Add`
calls, the sync bring-up script, the channel events observed while
`Running`, and what `up.Sy.IsConnected()` reports at exit selection. -/
structure IterScript where
  devEnv : DevModeEnv
  forwardAddResults : List (Option GoError)
  sync : SyncScript
  waitEvents : List ChanEvent
  syConnected : Bool
deriving Repr

/-- One iteration of the `for` loop of `Activate` (up.go:133-189):
`devMode(retry)`; the `DevForwarder.Add` loop and `Start`; `startSync`;
the `runCommand` goroutine; `WaitUntilExitOrInterrupt`;
`term.RestoreTerminal`; then `exitSelection`.  Any failure before
`Running` posts that error on `up.Exit` and returns. -/
def runIteration (retry : Bool) (it : IterScript) : List Action × IterEnd :=
  match (devMode retry it.devEnv).2 with
  | some e => ([.devModeCall retry, .exitPost (some e)], .exited (some e))
  | none =>
    match firstErr it.forwardAddResults with
    | some e => ([.devModeCall retry, .exitPost (some e)], .exited (some e))
    | none =>
      match (startSync it.sync).2 with
      | some e =>
        ([.devModeCall retry, .forwarderStart, .startSyncCall, .exitPost (some e)],
         .exited (some e))
      | none =>
        match WaitUntilExitOrInterrupt it.waitEvents with
        | none =>
          ([.devModeCall retry, .forwarderStart, .startSyncCall, .runCommand],
           .blocked)
        | some prevError =>
          match exitSelection prevError it.syConnected with
          | .reconnect =>
            ([.devModeCall retry, .forwarderStart, .startSyncCall, .runCommand,
              .restoreTerminal, .shutdownCall], .reconnected)
          | .exitWith e =>
            ([.devModeCall retry, .forwarderStart, .startSyncCall, .runCommand,
              .restoreTerminal, .exitPost e], .exited e)

/-- The `for` loop of `Activate` over a script of iteration outcomes.
After a reconnect the loop continues with `retry = true` (up.go:144).
The result is `some e` when the supervisor posted `e` on `up.Exit` and
returned, `none` when it is still running (blocked or script exhausted). -/
def activateLoop (retry : Bool) : List IterScript → List Action × Option (Option GoError)
  | [] => ([], none)
  | it :: rest =>
    match runIteration retry it with
    | (tr, .exited e) => (tr, some e)
    | (tr, .blocked) => (tr, none)
    | (tr, .reconnected) =>
      (tr ++ (activateLoop true rest).1, (activateLoop true rest).2)

/-- Embedding of `UpContext.Activate` (up.go:124-190): save the terminal state once;
on save failure post that error and return; otherwise run the loop
starting with `retry = false`. -/
def Activate (saveResult : Except GoError Unit) (script : List IterScript) :
    List Action × Option (Option GoError) :=
  match saveResult with
  | .error e => ([.exitPost (some e)], some (some e))
  | .ok _ =>
    ((.saveState : Action) :: (activateLoop false script).1, (activateLoop false script).2)

/-- Number of `saveState` actions in a trace. -/
def countSave : List Action → Nat
  | [] => 0
  | .saveState :: rest => countSave rest + 1
  | _ :: rest => countSave rest

/-- Every `runCommand` in the trace is immediately followed by
`restoreTerminal`, unless the trace ends at the `runCommand` (the wait
never returned, so `Running` was never left). -/
def restoresAfterRunCommand : List Action → Bool
  | .runCommand :: .restoreTerminal :: rest =>
    restoresAfterRunCommand (.restoreTerminal :: rest)
  | .runCommand :: _ :: _ => false
  | [.runCommand] => true
  | _ :: rest => restoresAfterRunCommand rest
  | [] => true

/-- Every `restoreTerminal` in the trace is immediately followed by the
supervisor's decision: either the reconnect path's `shutdownCall` or an
`exitPost`. -/
def decisionFollowsRestore : List Action → Bool
  | .restoreTerminal :: .shutdownCall :: rest =>
    decisionFollowsRestore (.shutdownCall :: rest)
  | .restoreTerminal :: .exitPost e :: rest =>
    decisionFollowsRestore (.exitPost e :: rest)
  | .restoreTerminal :: _ => false
  | _ :: rest => decisionFollowsRestore rest
  | [] => true

/-! ## Concrete sample inputs, used to instantiate the theorems -/

/-- An environment in which every external call of `devMode` succeeds. -/
def envAllOk : DevModeEnv :=
  { devName := "web", devNamespace := "", localNamespace := "dev",
    getLocalResult := none, syncthingNewResult := none,
    getResult := .ok { devModeOn := true }, userAnswersYes := true,
    secretsCreateResult := none, volumeCreateResult := none,
    dataVolumeResults := [none, none], devModeOnResult := .ok "c",
    servicesCreateResult := none, syncPodResult := .ok "sp", devPodResult := .ok "dp" }

/-- A sync script in which every call of `startSync` succeeds. -/
def syncAllOk : SyncScript :=
  { runResult := none, addRemoteResult := none, addGUIResult := none,
    pingResult := none, firstCompletionResult := none, overrideResult := none,
    secondCompletionResult := none, updateConfigResult := none, restartResult := none }

/-- An iteration that reaches `Running` and ends with a clean command exit
(after one non-fatal error on `ErrChan`). -/
def iterCleanExit : IterScript :=
  { devEnv := envAllOk, forwardAddResults := [none], sync := syncAllOk,
    waitEvents := [.errChan (.generic "x"), .running none], syConnected := true }

/-- An iteration that reaches `Running` and then loses the connection. -/
def iterReconnect : IterScript :=
  { devEnv := envAllOk, forwardAddResults := [none], sync := syncAllOk,
    waitEvents := [.disconnect], syConnected := true }

/-- An iteration whose sync bring-up fails at the ping step. -/
def iterPingFails : IterScript :=
  { iterCleanExit with sync := { syncAllOk with pingResult := some (.generic "ping timeout") } }

/-! ## Helper lemmas -/

/-- The elapsed time of a completed `shutdown`, per wait-group state. -/
def shutdownElapsedMs (s : SessionState) : Nat :=
  match s.wg with
  | none => 0
  | some none => 1000
  | some (some t) => min t 1000

theorem shutdown_eq_returned (s : SessionState) :
    shutdown s = .returned (shutdownElapsedMs s) := by
  rcases s with ⟨c, w, d, f⟩
  rcases c with _ | c <;> rcases d with _ | d <;> rcases f with _ | f <;>
    rcases w with _ | (_ | t) <;>
      simp [shutdown, callNilable, shutdownElapsedMs, Nat.min_def]
  all_goals split <;> simp_all

theorem shutdownElapsedMs_le (s : SessionState) : shutdownElapsedMs s ≤ 1000 := by
  rcases s with ⟨c, w, d, f⟩
  rcases w with _ | (_ | t) <;> simp [shutdownElapsedMs]

/-- The five possible shapes of one iteration of the `Activate` loop:
failure before the forwarder start, failure before `Running`, blocked in
the wait, reconnect, and exit after `Running`. -/
theorem runIteration_shape (r : Bool) (it : IterScript) :
    (∃ e, runIteration r it = ([.devModeCall r, .exitPost (some e)], .exited (some e)))
    ∨ (∃ e, runIteration r it =
        ([.devModeCall r, .forwarderStart, .startSyncCall, .exitPost (some e)],
         .exited (some e)))
    ∨ runIteration r it =
        ([.devModeCall r, .forwarderStart, .startSyncCall, .runCommand], .blocked)
    ∨ runIteration r it =
        ([.devModeCall r, .forwarderStart, .startSyncCall, .runCommand,
          .restoreTerminal, .shutdownCall], .reconnected)
    ∨ (∃ e, runIteration r it =
        ([.devModeCall r, .forwarderStart, .startSyncCall, .runCommand,
          .restoreTerminal, .exitPost e], .exited e)) := by
  rcases h1 : (devMode r it.devEnv).2 with _ | e₁
  · rcases h2 : firstErr it.forwardAddResults with _ | e₂
    · rcases h3 : (startSync it.sync).2 with _ | e₃
      · rcases h4 : WaitUntilExitOrInterrupt it.waitEvents with _ | pe
        · exact Or.inr (Or.inr (Or.inl (by simp [runIteration, h1, h2, h3, h4])))
        · rcases h5 : exitSelection pe it.syConnected with _ | e₅
          · exact Or.inr (Or.inr (Or.inr (Or.inl
              (by simp [runIteration, h1, h2, h3, h4, h5]))))
          · exact Or.inr (Or.inr (Or.inr (Or.inr
              ⟨e₅, by simp [runIteration, h1, h2, h3, h4, h5]⟩)))
      · exact Or.inr (Or.inl ⟨e₃, by simp [runIteration, h1, h2, h3]⟩)
    · exact Or.inl ⟨e₂, by simp [runIteration, h1, h2]⟩
  · exact Or.inl ⟨e₁, by simp [runIteration, h1]⟩

theorem activateLoop_countSave (r : Bool) (script : List IterScript) :
    countSave (activateLoop r script).1 = 0 := by
  induction script generalizing r with
  | nil => simp [activateLoop, countSave]
  | cons it rest ih =>
    rcases runIteration_shape r it with ⟨e, h⟩ | ⟨e, h⟩ | h | h | ⟨e, h⟩ <;>
      simp [activateLoop, h, countSave, ih]

theorem countSave_append (l₁ l₂ : List Action) :
    countSave (l₁ ++ l₂) = countSave l₁ + countSave l₂ := by
  induction l₁ with
  | nil => simp [countSave]
  | cons a l ih => cases a <;> (simp [countSave, ih]; try omega)

theorem activateLoop_restores (r : Bool) (script : List IterScript) :
    restoresAfterRunCommand (activateLoop r script).1 = true := by
  induction script generalizing r with
  | nil => simp [activateLoop, restoresAfterRunCommand]
  | cons it rest ih =>
    rcases runIteration_shape r it with ⟨e, h⟩ | ⟨e, h⟩ | h | h | ⟨e, h⟩ <;>
      simp [activateLoop, h, restoresAfterRunCommand, ih]

theorem activateLoop_decision (r : Bool) (script : List IterScript) :
    decisionFollowsRestore (activateLoop r script).1 = true := by
  induction script generalizing r with
  | nil => simp [activateLoop, decisionFollowsRestore]
  | cons it rest ih =>
    rcases runIteration_shape r it with ⟨e, h⟩ | ⟨e, h⟩ | h | h | ⟨e, h⟩ <;>
      simp [activateLoop, h, decisionFollowsRestore, ih]

theorem mem_createDataVolumes (a : DevAction) (l : List (Option GoError))
    (h : a ∈ (createDataVolumes l).1) : a = .volumeCreate := by
  induction l with
  | nil => simp [createDataVolumes] at h
  | cons r rest ih =>
    rcases r with _ | e
    · rw [createDataVolumes] at h
      rcases List.mem_cons.mp h with h | h
      · exact h
      · exact ih h
    · rw [createDataVolumes] at h
      simpa using h

theorem mem_devModePods (a : DevAction) (env : DevModeEnv) (tr : List DevAction)
    (h : a ∈ (devModePods env tr).1) :
    a ∈ tr ∨ a = .getSyncPod ∨ a = .getDevPod := by
  unfold devModePods at h
  rcases h1 : env.syncPodResult with e | p <;> rw [h1] at h
  · simp only [List.mem_append, List.mem_singleton] at h
    tauto
  · rcases h2 : env.devPodResult with e | p2 <;> rw [h2] at h <;>
      simp only [List.mem_append, List.mem_cons, List.mem_singleton,
        List.not_mem_nil, or_false] at h <;> tauto

theorem mem_devModePods_of_mem (a : DevAction) (env : DevModeEnv)
    (tr : List DevAction) (h : a ∈ tr) : a ∈ (devModePods env tr).1 := by
  unfold devModePods
  rcases h1 : env.syncPodResult with e | p
  · simp [h]
  · rcases h2 : env.devPodResult with e | p2 <;> simp [h]

theorem mem_mutationTrace (a : DevAction) (env : DevModeEnv)
    (tr tail : List DevAction)
    (htail : ∀ x ∈ tail, x = DevAction.devModeOn ∨ x = DevAction.servicesCreate)
    (h : a ∈ tr ++ [DevAction.secretsCreate, DevAction.volumeCreate]
        ++ (createDataVolumes env.dataVolumeResults).1 ++ tail) :
    a ∈ tr ∨ a = .secretsCreate ∨ a = .volumeCreate ∨ a = .devModeOn
      ∨ a = .servicesCreate := by
  simp only [List.mem_append, List.mem_cons, List.mem_singleton,
    List.not_mem_nil, or_false] at h
  rcases h with ((h | h | h) | h) | h
  · exact Or.inl h
  · tauto
  · tauto
  · have := mem_createDataVolumes a _ h
    tauto
  · rcases htail a h with h | h <;> tauto

theorem mem_devModeAfterGet (a : DevAction) (r c : Bool) (d : Workload)
    (env : DevModeEnv) (tr : List DevAction)
    (h : a ∈ (devModeAfterGet r c d env tr).1) :
    a ∈ tr ∨ a = .secretsCreate ∨ a = .volumeCreate ∨ a = .devModeOn
      ∨ a = .servicesCreate ∨ a = .getSyncPod ∨ a = .getDevPod := by
  simp only [devModeAfterGet] at h
  split at h
  · exact Or.inl h
  · split at h
    · simp only [List.mem_append, List.mem_singleton] at h
      tauto
    · split at h
      · simp only [List.mem_append, List.mem_cons, List.mem_singleton,
          List.not_mem_nil, or_false] at h
        tauto
      · split at h
        · simp only [List.mem_append, List.mem_cons, List.mem_singleton,
            List.not_mem_nil, or_false] at h
          rcases h with (h | h | h) | h
          · exact Or.inl h
          · tauto
          · tauto
          · have := mem_createDataVolumes a _ h
            tauto
        · split at h
          · have := mem_mutationTrace a env tr [DevAction.devModeOn]
              (by intro x hx; simp at hx; tauto) h
            tauto
          · split at h
            · split at h
              · have := mem_mutationTrace a env tr
                  [DevAction.devModeOn, DevAction.servicesCreate]
                  (by intro x hx; simp at hx; tauto) h
                tauto
              · rcases mem_devModePods a env _ h with hm | hm | hm
                · have := mem_mutationTrace a env tr
                    [DevAction.devModeOn, DevAction.servicesCreate]
                    (by intro x hx; simp at hx; tauto) hm
                  tauto
                · tauto
                · tauto
            · rcases mem_devModePods a env _ h with hm | hm | hm
              · have := mem_mutationTrace a env tr [DevAction.devModeOn]
                  (by intro x hx; simp at hx; tauto) hm
                tauto
              · tauto
              · tauto

theorem secretsCreate_mem_afterGet (c : Bool) (d : Workload)
    (env : DevModeEnv) (tr : List DevAction) :
    DevAction.secretsCreate ∈ (devModeAfterGet false c d env tr).1 := by
  simp only [devModeAfterGet]
  rw [if_neg (by simp)]
  split
  · simp
  · split
    · simp
    · split
      · simp
      · split
        · simp
        · split
          · split
            · simp
            · exact mem_devModePods_of_mem _ env _ (by simp)
          · exact mem_devModePods_of_mem _ env _ (by simp)

/-! ## Claim theorems -/

/-- C1: for every supervisor iteration, the supervisor transitions to
Reconnecting if and only if the wait's error is `ErrLostConnection`, or it
is `ErrCommandFailed` and the sync engine reports it is not connected;
every other wait result (nil included) is posted on the exit channel and
the supervisor returns, performing no further iteration.  The first
conjunct is the iff on `exitSelection`; the second says every non-reconnect
decision is `exitWith` of the wait's own result; the third and fourth say
how the loop proceeds: an `exited` iteration is the whole remaining run
(its trace is final and its error is the posted one), while a
`reconnected` iteration shuts down and the loop continues with
`retry = true`. -/
theorem exit_selection_spec :
    (∀ (e : Option GoError) (c : Bool),
      (exitSelection e c = .reconnect ↔
        (e = some .lostConnection ∨ (e = some .commandFailed ∧ c = false)))
      ∧ (exitSelection e c = .reconnect ∨ exitSelection e c = .exitWith e))
    ∧ (∀ (r : Bool) (it : IterScript) (rest : List IterScript) (e : Option GoError),
        (runIteration r it).2 = .exited e →
          activateLoop r (it :: rest) = ((runIteration r it).1, some e))
    ∧ (∀ (r : Bool) (it : IterScript) (rest : List IterScript),
        (runIteration r it).2 = .reconnected →
          activateLoop r (it :: rest) =
            ((runIteration r it).1 ++ (activateLoop true rest).1,
             (activateLoop true rest).2)) := by
  refine ⟨fun e c => ⟨?_, ?_⟩, ?_, ?_⟩
  · rcases e with _ | err
    · simp [exitSelection]
    · rcases err <;> rcases c <;> simp [exitSelection]
  · rcases e with _ | err
    · simp [exitSelection]
    · rcases err <;> rcases c <;> simp [exitSelection]
  · intro r it rest e h
    rcases hr : runIteration r it with ⟨tr, iend⟩
    rw [hr] at h
    simp at h
    subst h
    simp [activateLoop, hr]
  · intro r it rest h
    rcases hr : runIteration r it with ⟨tr, iend⟩
    rw [hr] at h
    simp at h
    subst h
    simp [activateLoop, hr]

/-- Witness for C1: on the concrete disconnect iteration `iterReconnect`
the loop continues into the remaining script, and on the clean-exit
iteration `iterCleanExit` the loop posts nil and stops. -/
theorem exit_selection_spec_witness :
    activateLoop false (iterReconnect :: [iterCleanExit]) =
      ((runIteration false iterReconnect).1 ++ (activateLoop true [iterCleanExit]).1,
       (activateLoop true [iterCleanExit]).2)
    ∧ activateLoop true (iterCleanExit :: []) =
      ((runIteration true iterCleanExit).1, some none) :=
  ⟨exit_selection_spec.2.2 false iterReconnect [iterCleanExit] rfl,
   exit_selection_spec.2.1 true iterCleanExit [] none rfl⟩

/-- C2: `WaitUntilExitOrInterrupt` is determined by the first event that
is not on the errors channel: nil on `Running` returns nil, non-nil on
`Running` returns `ErrCommandFailed`, `Disconnect` returns
`ErrLostConnection`, and a stream with no such event never returns (the
errors channel only logs).  Moreover once it has returned, later events
are not consumed: appending anything to a deciding stream does not change
the result, so at most one of (`running`, `disconnect`) is consumed as the
exit cause, whichever fires first. -/
theorem wait_until_exit_spec :
    (∀ evs : List ChanEvent,
      WaitUntilExitOrInterrupt evs =
        match firstDecisiveEvent evs with
        | none => none
        | some (.running none) => some none
        | some (.running (some _)) => some (some .commandFailed)
        | some .disconnect => some (some .lostConnection)
        | some (.errChan _) => none)
    ∧ (∀ (evs post : List ChanEvent),
        WaitUntilExitOrInterrupt evs ≠ none →
          WaitUntilExitOrInterrupt (evs ++ post) = WaitUntilExitOrInterrupt evs) := by
  constructor
  · intro evs
    induction evs with
    | nil => simp [WaitUntilExitOrInterrupt, firstDecisiveEvent]
    | cons ev rest ih =>
      rcases ev with (_ | e) | e | _ <;>
        simp [WaitUntilExitOrInterrupt, firstDecisiveEvent, ih]
  · intro evs post h
    induction evs with
    | nil => simp [WaitUntilExitOrInterrupt] at h
    | cons ev rest ih =>
      rcases ev with (_ | e) | e | _ <;>
        simp_all [WaitUntilExitOrInterrupt]

/-- Witness for C2: with a non-fatal error first, a clean command exit
decides the wait, and a disconnect arriving afterwards is ignored. -/
theorem wait_until_exit_spec_witness :
    WaitUntilExitOrInterrupt
        ([.errChan (.generic "x"), .running none] ++ [.disconnect]) =
      WaitUntilExitOrInterrupt [.errChan (.generic "x"), .running none] :=
  wait_until_exit_spec.2 [.errChan (.generic "x"), .running none] [.disconnect]
    (by decide)

/-- C4: the shutdown sub-procedure always returns, whatever the state of
the background tasks: for every session state (including a wait-group that
never drains, `wg = some none`, and including the state left behind by a
previous shutdown) it returns after at most 1000 milliseconds. -/
theorem shutdown_bounded_spec :
    ∀ s : SessionState, ∃ t, shutdown s = .returned t ∧ t ≤ 1000 := by
  intro s
  exact ⟨shutdownElapsedMs s, shutdown_eq_returned s, shutdownElapsedMs_le s⟩

/-- C8: the select of `RunUp` returns nil when the interrupt fires first,
returns nil when the exit channel delivers nil, and returns the delivered
error when the exit channel delivers a non-nil error. -/
theorem run_up_select_spec :
    runUpSelect .interrupt = none
    ∧ runUpSelect (.exitChan none) = none
    ∧ ∀ e : GoError, runUpSelect (.exitChan (some e)) = some e :=
  ⟨rfl, rfl, fun _ => rfl⟩

/-- C10: `shutdown` never dereferences a nil field — for every session
state, each of the four nilable fields being nil included, it returns
instead of panicking; in particular it is safe on the state the deferred
shutdown of `RunUp` can observe before the supervisor goroutine has
initialised anything. -/
theorem shutdown_nil_safe_spec :
    (∀ s : SessionState, shutdown s ≠ .panicked)
    ∧ shutdown runUpInitialState = .returned 0
    ∧ shutdown { cancel := none, wg := none, devForwarder := none,
                 syncForwarder := none } = .returned 0 := by
  refine ⟨fun s => ?_, by decide, by decide⟩
  rw [shutdown_eq_returned]
  simp

/-- C3: for every run of the supervisor loop (with a successful terminal
save), the trace starts with the unique `saveState` — the state is saved
exactly once, before the first iteration, and never re-saved on
reconnection — and every `runCommand` (entering `Running`) that is left is
immediately followed by `restoreTerminal`, which is itself immediately
followed by the supervisor's decision (`shutdownCall` on the reconnect
path or `exitPost` on the exit path). -/
theorem terminal_discipline_spec :
    ∀ script : List IterScript,
      (Activate (.ok ()) script).1.head? = some .saveState
      ∧ countSave (Activate (.ok ()) script).1 = 1
      ∧ restoresAfterRunCommand (Activate (.ok ()) script).1 = true
      ∧ decisionFollowsRestore (Activate (.ok ()) script).1 = true := by
  intro script
  refine ⟨by simp [Activate], ?_, ?_, ?_⟩
  · simp [Activate, countSave, activateLoop_countSave]
  · simpa [Activate, restoresAfterRunCommand] using activateLoop_restores false script
  · simpa [Activate, decisionFollowsRestore] using activateLoop_decision false script

/-- C5: on a retry iteration, a NotFound from the workload fetch fails
activation with that very error: the trace stops at the fetch, so the user
is not prompted and no sandbox is built; indeed for `isRetry = true` the
prompt and the sandbox construction are unreachable in any environment. -/
theorem dev_mode_retry_not_found_spec :
    (∀ (env : DevModeEnv) (e : GoError),
      env.getLocalResult = none → env.syncthingNewResult = none →
      env.getResult = .error e → e.isNotFound = true →
      devMode true env = ([.getLocal, .syncthingNew, .getDeployment], some e))
    ∧ (∀ env : DevModeEnv,
        DevAction.prompt ∉ (devMode true env).1
        ∧ DevAction.sandboxBuild ∉ (devMode true env).1) := by
  constructor
  · intro env e h1 h2 h3 h4
    simp [devMode, h1, h2, h3, h4]
  · intro env
    have key : ∀ a, a ∈ (devMode true env).1 →
        a = DevAction.getLocal ∨ a = .syncthingNew ∨ a = .getDeployment
        ∨ a = .secretsCreate ∨ a = .volumeCreate ∨ a = .devModeOn
        ∨ a = .servicesCreate ∨ a = .getSyncPod ∨ a = .getDevPod := by
      intro a ha
      rcases h1 : env.getLocalResult with _ | e1
      · rcases h2 : env.syncthingNewResult with _ | e2
        · rcases h3 : env.getResult with e3 | d
          · simp only [devMode, h1, h2, h3] at ha
            rw [if_pos (Or.inr trivial)] at ha
            simp at ha
            tauto
          · simp only [devMode, h1, h2, h3] at ha
            rcases mem_devModeAfterGet a true false d env _ ha with hm | hm
            · simp at hm
              tauto
            · tauto
        · simp only [devMode, h1, h2] at ha
          simp at ha
          tauto
      · simp only [devMode, h1] at ha
        simp at ha
        tauto
    constructor <;> intro hmem <;>
      rcases key _ hmem with h | h | h | h | h | h | h | h | h <;> simp at h

/-- Witness for C5: the concrete retry environment in which the fetch
yields NotFound. -/
theorem dev_mode_retry_not_found_witness :
    devMode true { envAllOk with getResult := .error (.notFound "nf") } =
      ([.getLocal, .syncthingNew, .getDeployment], some (.notFound "nf")) :=
  dev_mode_retry_not_found_spec.1 _ (.notFound "nf") rfl rfl rfl rfl

/-- C6: on a retry iteration with the workload present but no longer in
dev mode, activation fails with the `Deactivated` error and the trace
stops at the fetch — before the secret, volume, dev-mode or service
mutations of that iteration; on a first attempt the check is not applied:
the same fetch outcome proceeds into `secrets.Create`. -/
theorem dev_mode_retry_deactivated_spec :
    (∀ (env : DevModeEnv) (d : Workload),
      env.getLocalResult = none → env.syncthingNewResult = none →
      env.getResult = .ok d → d.devModeOn = false →
      devMode true env = ([.getLocal, .syncthingNew, .getDeployment],
        some (.generic "Your Okteto Environment has been deactivated")))
    ∧ (∀ (env : DevModeEnv) (d : Workload),
      env.getLocalResult = none → env.syncthingNewResult = none →
      env.getResult = .ok d →
      DevAction.secretsCreate ∈ (devMode false env).1) := by
  constructor
  · intro env d h1 h2 h3 h4
    simp [devMode, h1, h2, h3, devModeAfterGet, h4]
  · intro env d h1 h2 h3
    simp only [devMode, h1, h2, h3]
    exact secretsCreate_mem_afterGet false d env _

/-- Witness for C6: the concrete deactivated workload, on retry and on a
first attempt. -/
theorem dev_mode_retry_deactivated_witness :
    devMode true { envAllOk with getResult := .ok { devModeOn := false } } =
      ([.getLocal, .syncthingNew, .getDeployment],
       some (.generic "Your Okteto Environment has been deactivated"))
    ∧ DevAction.secretsCreate ∈
        (devMode false { envAllOk with getResult := .ok { devModeOn := false } }).1 :=
  ⟨dev_mode_retry_deactivated_spec.1 _ { devModeOn := false } rfl rfl rfl rfl,
   dev_mode_retry_deactivated_spec.2 _ { devModeOn := false } rfl rfl rfl⟩

/-- C9: on a first attempt with the workload absent, declining the sandbox
prompt fails immediately with the `deployment ... not found` error; the
trace is exactly GetLocal, syncthing construction, the workload GET and
the prompt — no secret, volume, dev-mode or service mutation happened. -/
theorem dev_mode_decline_spec :
    ∀ (env : DevModeEnv) (e : GoError),
      env.getLocalResult = none → env.syncthingNewResult = none →
      env.getResult = .error e → e.isNotFound = true →
      env.userAnswersYes = false →
      devMode false env = ([.getLocal, .syncthingNew, .getDeployment, .prompt],
        some (.generic ("deployment " ++ env.devName
          ++ " not found [current context: " ++ devModeEffNamespace env ++ "]")))
      ∧ DevAction.secretsCreate ∉ (devMode false env).1
      ∧ DevAction.volumeCreate ∉ (devMode false env).1
      ∧ DevAction.devModeOn ∉ (devMode false env).1
      ∧ DevAction.servicesCreate ∉ (devMode false env).1 := by
  intro env e h1 h2 h3 h4 h5
  have heq : devMode false env =
      ([.getLocal, .syncthingNew, .getDeployment, .prompt],
       some (.generic ("deployment " ++ env.devName
         ++ " not found [current context: " ++ devModeEffNamespace env ++ "]"))) := by
    simp [devMode, h1, h2, h3, h4, h5]
  refine ⟨heq, ?_, ?_, ?_, ?_⟩ <;> rw [heq] <;> simp

/-- The environment of scenario S2's declining branch: workload absent,
user answers no. -/
def envDeclined : DevModeEnv :=
  { envAllOk with getResult := .error (.notFound "nf"), userAnswersYes := false }

/-- Witness for C9: the concrete declined-prompt environment. -/
theorem dev_mode_decline_witness :
    devMode false envDeclined =
      ([.getLocal, .syncthingNew, .getDeployment, .prompt],
       some (.generic "deployment web not found [current context: dev]")) :=
  (dev_mode_decline_spec envDeclined (.notFound "nf") rfl rfl rfl rfl rfl).1

/-- C7: the sync bring-up runs its steps in the strict order `run`,
`addRemote`, `addGUI`, `forwarderStart`, `monitor`, `waitForPing`,
`firstCompletion`, `overrideChanges`, `secondCompletion`, `updateConfig`,
`restart` — the trace of every run is a prefix of that order, so no later
step begins before the earlier ones complete; the propagated error is that
of the first failing step, a nil result means the full order ran; and a
failing `startSync` makes the iteration post that error on the exit
channel and return. -/
theorem start_sync_order_spec :
    (∀ s : SyncScript, List.isPrefixOf (startSync s).1 syncStepOrder = true)
    ∧ (∀ s : SyncScript, (startSync s).2 = syncFirstFailure s)
    ∧ (∀ s : SyncScript, (startSync s).2 = none → (startSync s).1 = syncStepOrder)
    ∧ (∀ (r : Bool) (it : IterScript) (e : GoError),
        (devMode r it.devEnv).2 = none → firstErr it.forwardAddResults = none →
        (startSync it.sync).2 = some e →
        runIteration r it =
          ([.devModeCall r, .forwarderStart, .startSyncCall, .exitPost (some e)],
           .exited (some e))) := by
  refine ⟨?_, ?_, ?_, ?_⟩
  · intro s
    rcases s with ⟨r1, r2, r3, r4, r5, r6, r7, r8, r9⟩
    rcases r1 with _ | e1
    case some => rfl
    rcases r2 with _ | e2
    case some => rfl
    rcases r3 with _ | e3
    case some => rfl
    rcases r4 with _ | e4
    case some => rfl
    rcases r5 with _ | e5
    case some => rfl
    rcases r6 with _ | e6
    case some => rfl
    rcases r7 with _ | e7
    case some => rfl
    rcases r8 with _ | e8
    case some => rfl
    rcases r9 with _ | e9 <;> rfl
  · intro s
    rcases s with ⟨r1, r2, r3, r4, r5, r6, r7, r8, r9⟩
    rcases r1 with _ | e1
    case some => rfl
    rcases r2 with _ | e2
    case some => rfl
    rcases r3 with _ | e3
    case some => rfl
    rcases r4 with _ | e4
    case some => rfl
    rcases r5 with _ | e5
    case some => rfl
    rcases r6 with _ | e6
    case some => rfl
    rcases r7 with _ | e7
    case some => rfl
    rcases r8 with _ | e8
    case some => rfl
    rcases r9 with _ | e9 <;> rfl
  · intro s h
    rcases s with ⟨r1, r2, r3, r4, r5, r6, r7, r8, r9⟩
    rcases r1 with _ | e1
    case some => exact absurd h (by simp [startSync])
    rcases r2 with _ | e2
    case some => exact absurd h (by simp [startSync])
    rcases r3 with _ | e3
    case some => exact absurd h (by simp [startSync])
    rcases r4 with _ | e4
    case some => exact absurd h (by simp [startSync])
    rcases r5 with _ | e5
    case some => exact absurd h (by simp [startSync])
    rcases r6 with _ | e6
    case some => exact absurd h (by simp [startSync])
    rcases r7 with _ | e7
    case some => exact absurd h (by simp [startSync])
    rcases r8 with _ | e8
    case some => exact absurd h (by simp [startSync])
    rcases r9 with _ | e9
    case some => exact absurd h (by simp [startSync])
    rfl
  · intro r it e h1 h2 h3
    simp [runIteration, h1, h2, h3]

/-- Witness for C7: the concrete iteration whose ping wait fails posts
that error on the exit channel. -/
theorem start_sync_order_witness :
    runIteration false iterPingFails =
      ([.devModeCall false, .forwarderStart, .startSyncCall,
        .exitPost (some (.generic "ping timeout"))],
       .exited (some (.generic "ping timeout"))) :=
  start_sync_order_spec.2.2.2 false iterPingFails (.generic "ping timeout")
    rfl rfl rfl

end Okteto
